import Mathlib

/-!
Shallow embedding of the `xtts_local` repository (setup orchestrator
`xtts_local_setup.py`, generated launcher `ejecutar_xtts.py`).

File contents are modelled as `List Char`; Python's `pat in s` is list
infix (`pat <:+: s`) and `str.replace` is `replaceText` below
(left-to-right, non-overlapping replacement of every occurrence).
Side-effecting Python functions become pure Lean functions over explicit
state: the provisioning state record (`config_state`), a small file-system
record, and environment structures whose fields record the outcome of each
external action (process exit codes, raised exceptions, file sizes).
-/

namespace XttsLocal

/-- File text, modelled as its character list. -/
abbrev Text := List Char

/-- Python `str.replace`, pattern split as `p0 :: pr` so the pattern is
syntactically nonempty (every pattern used by the program is a nonempty
literal): replaces every non-overlapping occurrence, scanning left to
right. -/
def replaceAux (p0 : Char) (pr n : Text) : Text → Text
  | [] => []
  | c :: s =>
    if (p0 :: pr).isPrefixOf (c :: s) then
      n ++ replaceAux p0 pr n (List.drop pr.length s)
    else
      c :: replaceAux p0 pr n s
termination_by s => s.length
decreasing_by
  · simp only [List.length_cons, List.length_drop]
    omega
  · simp only [List.length_cons]
    omega

/-- `s.replace(pat, n)` for the nonempty patterns the program uses;
the empty-pattern case never arises in the source. -/
def replaceText (s pat n : Text) : Text :=
  match pat with
  | [] => s
  | p0 :: pr => replaceAux p0 pr n s

/-- Python `pat in s` on strings: `pat` occurs as a contiguous substring. -/
def containsText (s pat : Text) : Prop := pat <:+: s

instance (s pat : Text) : Decidable (containsText s pat) :=
  List.decidableInfix pat s

/-! ## Provisioning state (`config_state`, `xtts_local_setup.py` lines 70-99) -/

/-- One element of `config_state["error_log"]`
(`xtts_local_setup.py` lines 138-145). -/
structure ErrorEntry where
  timestamp : Nat
  command : String
  error : String
  stderr : Option String
deriving DecidableEq, Repr

/-- The `config_state` record (`xtts_local_setup.py` lines 71-78). -/
structure ConfigState where
  installed : Bool
  models_downloaded : Bool
  patched : Bool
  last_run : Option Nat
  python_exe : Option String
  error_log : List ErrorEntry
deriving DecidableEq, Repr

/-- The literal initial value of `config_state` (lines 71-78). -/
def initialConfigState : ConfigState :=
  { installed := false
    models_downloaded := false
    patched := false
    last_run := none
    python_exe := none
    error_log := [] }

/-- `save_config_state` (lines 81-86): stamps `last_run` with the current
time and writes the whole record to `CONFIG_FILE`; the returned value is
both the new in-memory state and the exact content written. -/
def save_config_state (now : Nat) (st : ConfigState) : ConfigState :=
  { st with last_run := some now }

/-- A parsed state file: each field that the JSON object contains
(`dict.update` merges it over the in-memory value). -/
structure LoadedFields where
  installed : Option Bool
  models_downloaded : Option Bool
  patched : Option Bool
  last_run : Option (Option Nat)
  python_exe : Option (Option String)
  error_log : Option (List ErrorEntry)
deriving DecidableEq, Repr

/-- A `LoadedFields` record with no field present. -/
def noFields : LoadedFields :=
  { installed := none
    models_downloaded := none
    patched := none
    last_run := none
    python_exe := none
    error_log := none }

/-- The observable content of `CONFIG_FILE` as `load_config_state` sees it:
missing, unreadable or non-JSON, or a parsed JSON object. -/
inductive ConfigFile
  | absent
  | corrupt
  | parsed (fields : LoadedFields)
deriving DecidableEq, Repr

/-- `config_state.update(loaded_state)` (line 96): fields present in the
file override the in-memory value, absent fields are kept. -/
def updateState (cur : ConfigState) (p : LoadedFields) : ConfigState :=
  { installed := p.installed.getD cur.installed
    models_downloaded := p.models_downloaded.getD cur.models_downloaded
    patched := p.patched.getD cur.patched
    last_run := p.last_run.getD cur.last_run
    python_exe := p.python_exe.getD cur.python_exe
    error_log := p.error_log.getD cur.error_log }

/-- `load_config_state` (lines 89-99).  Returns the new in-memory state and
whether the `except` branch logged a warning.  A missing file is skipped
(line 92), a file that fails to parse or whose value cannot be merged is
caught by the bare `except Exception` (line 98) leaving the defaults, and a
parsed object is merged by `dict.update` (line 96). -/
def load_config_state (cur : ConfigState) : ConfigFile → ConfigState × Bool
  | .absent => (cur, false)
  | .corrupt => (cur, true)
  | .parsed p => (updateState cur p, false)

/-! ## Command runner (`run_command`, `xtts_local_setup.py` lines 102-157) -/

/-- The transient result of `subprocess.run`
(spec data model "Command Result"). -/
structure CmdResult where
  returncode : Int
  stdout : String
  stderr : String
deriving DecidableEq, Repr

/-- `str(e)` for the `subprocess.CalledProcessError` raised when a checked
command exits non-zero (used for the `error` field of the log entry). -/
def calledProcessErrorText (command : String) (rc : Int) : String :=
  "Command " ++ command ++ " returned non-zero exit status " ++ toString rc ++ "."

/-- The error-log entry appended at lines 138-145: `e.stderr` is kept only
when it is truthy (a non-empty string). -/
def commandErrorEntry (now : Nat) (command : String) (r : CmdResult) :
    ErrorEntry :=
  { timestamp := now
    command := command
    error := calledProcessErrorText command r.returncode
    stderr := if r.stderr = "" then none else some r.stderr }

/-- `run_command` (lines 102-157), for a command whose `subprocess.run`
yields `r`.  Returns `(result, new state, terminated)`:
`subprocess.run` with `check=True` raises `CalledProcessError` exactly when the
exit code is non-zero; the handler (lines 132-157) logs, appends an
error-log entry and returns `None` — it never calls `sys.exit`, so the
process is never terminated (`terminated` is always `false`).  With
`check=False` the result object is returned as is, whatever its exit code,
and nothing is logged. -/
def run_command (st : ConfigState) (now : Nat) (command : String)
    (check : Bool) (r : CmdResult) :
    Option CmdResult × ConfigState × Bool :=
  if check ∧ r.returncode ≠ 0 then
    (none,
     { st with error_log := st.error_log ++ [commandErrorEntry now command r] },
     false)
  else
    (some r, st, false)

/-! ## Downloader (`download_file`, `xtts_local_setup.py` lines 543-628) -/

/-- Outcome of one transport attempt for a given URL and destination:
whether an exception was raised anywhere in the attempt (a missing binary,
an import error, an HTTP error, ...), the process exit code, and whether
afterwards the destination file exists and its size in bytes. -/
structure AttemptOutcome where
  raises : Bool
  returncode : Int
  file_exists : Bool
  file_size : Nat
deriving DecidableEq, Repr

/-- Environment of one `download_file` call: the host platform and the
outcome each of the three strategies would have. -/
structure DownloadEnv where
  is_win32 : Bool
  wget : AttemptOutcome
  curl : AttemptOutcome
  req : AttemptOutcome
deriving DecidableEq, Repr

/-- The three transport strategies, in source order. -/
inductive Strategy
  | wget
  | curl
  | requestsLib
deriving DecidableEq, Repr

/-- Success test of the wget strategy (lines 556-561): `run_command`
returned a result, the exit code is 0, the destination exists and holds
more than 1000 bytes. -/
def wgetOk (a : AttemptOutcome) : Bool :=
  !a.raises && a.returncode == 0 && a.file_exists && decide (1000 < a.file_size)

/-- Success test of the curl strategy (lines 577-582), same shape. -/
def curlOk (a : AttemptOutcome) : Bool :=
  !a.raises && a.returncode == 0 && a.file_exists && decide (1000 < a.file_size)

/-- Success test of the requests strategy (line 615): the streaming fetch
raised nothing, and the destination exists with more than 1000 bytes. -/
def requestsOk (a : AttemptOutcome) : Bool :=
  !a.raises && a.file_exists && decide (1000 < a.file_size)

/-- `download_file` (lines 543-628): returns the boolean result together
with the list of strategies actually attempted.  On non-Windows platforms
wget is tried first (lines 549-567), then curl (lines 570-588); both blocks
are guarded by `sys.platform != "win32"` and any exception is caught and
logged as a warning.  The requests strategy (lines 590-625) is always
tried last; its `except` returns `False` directly, so every transport
error is absorbed and the function totally returns a boolean. -/
def download_file (env : DownloadEnv) : Bool × List Strategy :=
  let att1 : List Strategy := if env.is_win32 then [] else [.wget]
  if !env.is_win32 && wgetOk env.wget then
    (true, att1)
  else
    let att2 : List Strategy := att1 ++ if env.is_win32 then [] else [.curl]
    if !env.is_win32 && curlOk env.curl then
      (true, att2)
    else
      (requestsOk env.req, att2 ++ [.requestsLib])

/-! ## Resource download (`download_resources`, lines 631-712) -/

/-- Environment of one `download_resources` call. -/
structure ResourceEnv where
  /-- `MODEL_DIR.exists() and list(MODEL_DIR.glob("*.json"))` (line 634). -/
  model_dir_has_json : Bool
  /-- Transport outcomes for the model archive download (line 644). -/
  model_dl : DownloadEnv
  /-- The `zipfile` extraction of the model raises (lines 655-673). -/
  extract_model_fails : Bool
  /-- `config.json` exists under `MODEL_DIR` after extraction (line 663). -/
  config_json_present : Bool
  /-- Transport outcomes for the voices archive download (line 677). -/
  voices_dl : DownloadEnv
  /-- The `zipfile` extraction of the voices raises (lines 688-699). -/
  extract_voices_fails : Bool
deriving DecidableEq, Repr

/-- `download_resources` (lines 631-712): returns `(result, new state)`.
When model files are already present it records `models_downloaded` and
returns `True` (lines 634-640).  A failed model download or extraction or
a missing `config.json` returns `False` with the state unchanged (lines
648-673).  Voices failures only warn (lines 681-699); on the success path
`models_downloaded` is set and `True` returned (lines 711-712). -/
def download_resources (env : ResourceEnv) (st : ConfigState) :
    Bool × ConfigState :=
  if env.model_dir_has_json then
    (true, { st with models_downloaded := true })
  else if (download_file env.model_dl).1 = false then
    (false, st)
  else if env.extract_model_fails then
    (false, st)
  else if env.config_json_present = false then
    (false, st)
  else
    (true, { st with models_downloaded := true })

/-! ## Compatibility patcher (`apply_compatibility_patch`, lines 715-829) -/

/-- The literal `compatibility_code` shim text (lines 725-732);
`\x27` is the ASCII apostrophe. -/
def compatibility_code : Text :=
  ("# Patch para resolver el problema de LogitsWarper\nimport sys\nfrom transformers.generation.logits_process import LogitsProcessor\nimport transformers\nif not hasattr(transformers, \x27LogitsWarper\x27):\n    setattr(transformers, \x27LogitsWarper\x27, LogitsProcessor)\n    print(\"✅ Compatibilidad LogitsWarper habilitada\")\n").data

/-- The missing symbol searched for in `gpt_trainer.py` (line 787). -/
def logitsWarperName : Text := "LogitsWarper".data

/-- The import statement rewritten by the patch (line 789). -/
def importPat : Text := "from transformers import".data

/-- Its replacement, which binds the missing name (line 790). -/
def importRepl : Text :=
  "from transformers import LogitsProcessor as LogitsWarper,".data

/-- The files the patcher touches: `utils/compatibility.py` under the
repository, and the first `gpt_trainer.py` found under the interpreter's
site-packages directories (`none` when no such file exists). -/
structure PatchFS where
  compat : Option Text
  gpt_trainer : Option Text
deriving DecidableEq, Repr

/-- Environment of one `apply_compatibility_patch` call: which of the
guarded external actions raise. -/
structure PatchEnv where
  /-- The direct write of `utils/compatibility.py` raises (lines 734-739). -/
  compat_write_fails : Bool
  /-- The temp-file fallback write also raises (lines 743-759). -/
  compat_alt_write_fails : Bool
  /-- `site.getsitepackages()` or the file accesses raise (lines 762-814). -/
  site_lookup_fails : Bool
  /-- The in-process `setattr` patch raises (lines 816-825); it touches only
  the loaded `transformers` module, outside the file system model. -/
  dynamic_patch_fails : Bool
deriving DecidableEq, Repr

/-- The rewrite applied to a found `gpt_trainer.py` (lines 783-803): if the
text already contains `LogitsWarper` nothing is written, otherwise every
`from transformers import` is replaced by a form that binds the name. -/
def patchGptContent (content : Text) : Text :=
  if containsText content logitsWarperName then content
  else replaceText content importPat importRepl

/-- Result of `apply_compatibility_patch`: the new provisioning state and
file system, plus whether each file was actually written to. -/
structure PatchResult where
  state : ConfigState
  fs : PatchFS
  shim_written : Bool
  gpt_written : Bool
deriving DecidableEq, Repr

/-- `apply_compatibility_patch` (lines 715-829).  The shim write (lines
734-737) is unconditional — it does not test whether the file exists — and
on failure a temp-file fallback is tried (lines 743-754); both failing is
only logged.  The `gpt_trainer.py` rewrite happens only when the file is
found and does not already contain `LogitsWarper`.  Every failure path is
caught, and line 828 sets `patched` unconditionally. -/
def apply_compatibility_patch (env : PatchEnv) (st : ConfigState)
    (fs : PatchFS) : PatchResult :=
  let shimWrite : Option Text × Bool :=
    if env.compat_write_fails = false then
      (some compatibility_code, true)
    else if env.compat_alt_write_fails = false then
      (some compatibility_code, true)
    else
      (fs.compat, false)
  let gptWrite : Option Text × Bool :=
    if env.site_lookup_fails then
      (fs.gpt_trainer, false)
    else
      match fs.gpt_trainer with
      | none => (none, false)
      | some content =>
        if containsText content logitsWarperName then
          (some content, false)
        else
          (some (replaceText content importPat importRepl), true)
  { state := { st with patched := true }
    fs := { compat := shimWrite.1, gpt_trainer := gptWrite.1 }
    shim_written := shimWrite.2
    gpt_written := gptWrite.2 }

/-! ## Setup orchestrator (`main`, `xtts_local_setup.py` lines 1005-1117) -/

/-- The command-line flags parsed at lines 1010-1024. -/
structure Args where
  skip_download : Bool
  force_download : Bool
  no_venv : Bool
  verbose : Bool
deriving DecidableEq, Repr

/-- Environment of one orchestrator run: outcome of every external step
with an abort path, plus the wall-clock time at the final save. -/
structure OrchestratorEnv where
  /-- `sys.version_info >= (3, 9)`; otherwise `check_python_version` calls
  `sys.exit(1)` (lines 160-166). -/
  python_version_ok : Bool
  /-- The write test in `setup_environment` does not hit `PermissionError`,
  whose branch calls `sys.exit(1)` (lines 184-187). -/
  setup_permission_ok : Bool
  /-- The repository is obtained; when both the clone and the ZIP fallback
  fail, `clone_repository` calls `sys.exit(1)` (line 333). -/
  clone_ok : Bool
  /-- The venv interpreter recorded by `get_python_executable`
  (line 437), when one is verified. -/
  venv_python : Option String
  /-- `requirements.txt` exists (or was created), so
  `install_python_dependencies` returns at line 512 before the
  `installed` flag is set at line 540. -/
  requirements_file_ok : Bool
  /-- Environment of the `download_resources` call (line 1061). -/
  res : ResourceEnv
  /-- Environment of the `apply_compatibility_patch` call (line 1070). -/
  patch : PatchEnv
  /-- `time.time()` when `save_config_state` runs (line 83). -/
  now : Nat
deriving DecidableEq, Repr

/-- The observable outcome of an orchestrator run. -/
structure OrchestratorResult where
  /-- The process exit status (`sys.exit(main())`, line 1117). -/
  exit_code : Nat
  /-- Whether `download_resources` was called (line 1061). -/
  download_invoked : Bool
  /-- The state record written by `save_config_state`, `none` when the run
  aborted before reaching line 1076. -/
  saved : Option ConfigState
  /-- The patcher-visible file system after the run. -/
  fs : PatchFS
deriving DecidableEq, Repr

/-- `main` (lines 1005-1117).  Loads the state over the in-memory defaults
(line 1032), aborts with status 1 when a prerequisite step calls
`sys.exit(1)`, decides the download at lines 1058-1061 —
`args.force_download or (not args.skip_download and not
config_state.get("models_downloaded", False))` — discarding the return
value of `download_resources`, applies the compatibility patch, and saves
the stamped state (line 1076) before returning 0.  `create_launcher_script`
only writes the launcher text and affects nothing modelled here. -/
def orchestratorMain (args : Args) (file : ConfigFile) (env : OrchestratorEnv)
    (fs : PatchFS) : OrchestratorResult :=
  let st0 := (load_config_state initialConfigState file).1
  if env.python_version_ok = false then
    { exit_code := 1, download_invoked := false, saved := none, fs := fs }
  else if env.setup_permission_ok = false then
    { exit_code := 1, download_invoked := false, saved := none, fs := fs }
  else if env.clone_ok = false then
    { exit_code := 1, download_invoked := false, saved := none, fs := fs }
  else
    let st1 :=
      match env.venv_python with
      | some p => { st0 with python_exe := some p }
      | none => st0
    let st2 :=
      if env.requirements_file_ok then st1 else { st1 with installed := true }
    let downloadInvoked :=
      args.force_download ||
        (!args.skip_download && !st2.models_downloaded)
    let st3 :=
      if downloadInvoked then (download_resources env.res st2).2 else st2
    let pr := apply_compatibility_patch env.patch st3 fs
    let saved := save_config_state env.now pr.state
    { exit_code := 0, download_invoked := downloadInvoked,
      saved := some saved, fs := pr.fs }

/-! ## Launcher (`ejecutar_xtts.py`) -/

/-- Requests sent to the supervised child process. -/
inductive ChildAction
  | terminate
  | kill
deriving DecidableEq, Repr

/-- The grace period passed to `process.wait(timeout=5)` (line 35). -/
def graceSeconds : Nat := 5

/-- `signal_handler` (`ejecutar_xtts.py` lines 29-40) on SIGINT.
`exits_after` is the number of seconds after the terminate request at
which the child would exit (`none`: it never would); `process.wait(5)`
raises `TimeoutExpired` exactly when that exceeds the grace period, and
the handler then calls `process.kill()`.  Either way the handler ends in
`sys.exit(0)`; with no child running it only exits.  Returns the actions
sent to the child, in order, and the launcher's exit status. -/
def signal_handler (child_running : Bool) (exits_after : Option Nat) :
    List ChildAction × Nat :=
  if child_running then
    match exits_after with
    | some t =>
      if t ≤ graceSeconds then ([.terminate], 0)
      else ([.terminate, .kill], 0)
    | none => ([.terminate, .kill], 0)
  else ([], 0)

/-- Environment of one launcher run: outcome of each external step. -/
structure LauncherEnv where
  /-- `os.chdir(project_dir)` succeeds (line 66); failure lands in the
  `except Exception` handler, which exits 1 (lines 167-173). -/
  chdir_ok : Bool
  /-- `import compatibility` succeeds (line 77); failure only logs and
  falls back to the in-process patch. -/
  compatibility_import_ok : Bool
  /-- The in-process fallback patch succeeds (lines 42-53); failure only
  logs warnings (lines 85-87). -/
  dynamic_patch_ok : Bool
  /-- `os.path.exists(model/config.json)` (line 91). -/
  model_config_exists : Bool
  /-- `app.py` exists in the project directory (line 108). -/
  app_py_exists : Bool
  /-- Otherwise, the first existing candidate script or first `*.py` file
  (lines 112-127); `none` when the directory has no Python file at all,
  in which case line 130 exits 1. -/
  fallback_script : Option String
  /-- `subprocess.Popen` raises (line 137); the `except Exception`
  handler then exits 1. -/
  spawn_raises : Bool
  /-- `process.wait()` (line 155). -/
  child_returncode : Int
deriving DecidableEq, Repr

/-- The observable outcome of one launcher run. -/
structure LauncherResult where
  /-- `some c` when the run ends in `sys.exit(c)`; `none` when `main`
  returns normally after supervising the child. -/
  exit_code : Option Nat
  /-- Whether a child web-server process was created. -/
  spawned : Bool
deriving DecidableEq, Repr

/-- `main` of `ejecutar_xtts.py` (lines 55-173).  The model check at
lines 89-94 runs before any `subprocess.Popen`; its `sys.exit(1)` raises
`SystemExit`, which neither `except KeyboardInterrupt` nor
`except Exception` intercepts, so the process exits with status 1 without
a child having been spawned.  A non-zero child exit only logs
(lines 155-159). -/
def launcherMain (env : LauncherEnv) : LauncherResult :=
  if env.chdir_ok = false then
    { exit_code := some 1, spawned := false }
  else if env.model_config_exists = false then
    { exit_code := some 1, spawned := false }
  else
    let script : Option String :=
      if env.app_py_exists then some "app.py" else env.fallback_script
    match script with
    | none => { exit_code := some 1, spawned := false }
    | some _ =>
      if env.spawn_raises then
        { exit_code := some 1, spawned := false }
      else
        { exit_code := none, spawned := true }

/-! ## Sample concrete inputs (used to instantiate the theorems below) -/

/-- A transport attempt that fails outright. -/
def attemptFail : AttemptOutcome :=
  { raises := true, returncode := 1, file_exists := false, file_size := 0 }

/-- A transport attempt that exits 0 and leaves a 2000-byte file. -/
def attemptSuccess : AttemptOutcome :=
  { raises := false, returncode := 0, file_exists := true, file_size := 2000 }

/-- A non-Windows download environment in which every strategy fails. -/
def downloadAllFail : DownloadEnv :=
  { is_win32 := false, wget := attemptFail, curl := attemptFail,
    req := attemptFail }

/-- A resource environment with no cached model and no working transport. -/
def resourcesAllFail : ResourceEnv :=
  { model_dir_has_json := false, model_dl := downloadAllFail,
    extract_model_fails := false, config_json_present := false,
    voices_dl := downloadAllFail, extract_voices_fails := false }

/-- A patcher environment in which no guarded action raises. -/
def patchEnvClean : PatchEnv :=
  { compat_write_fails := false, compat_alt_write_fails := false,
    site_lookup_fails := false, dynamic_patch_fails := false }

/-- A file system with neither the shim nor a found `gpt_trainer.py`. -/
def emptyPatchFS : PatchFS := { compat := none, gpt_trainer := none }

/-- An orchestrator run in which every prerequisite step succeeds, no venv
interpreter is recorded, `requirements.txt` is present, all downloads would
fail, and the final save happens at time 10. -/
def sampleOrchestratorEnv : OrchestratorEnv :=
  { python_version_ok := true, setup_permission_ok := true, clone_ok := true,
    venv_python := none, requirements_file_ok := true,
    res := resourcesAllFail, patch := patchEnvClean, now := 10 }

/-- An invocation with no command-line flags. -/
def argsPlain : Args :=
  { skip_download := false, force_download := false, no_venv := false,
    verbose := false }

/-- An invocation passing both `--skip-download` and `--force-download`. -/
def argsBothFlags : Args :=
  { skip_download := true, force_download := true, no_venv := false,
    verbose := false }

/-- A state file recording a completed provisioning run at time 5. -/
def recordedDoneFile : ConfigFile :=
  .parsed { noFields with models_downloaded := some true,
                          patched := some true,
                          last_run := some (some 5) }

/-! ## Helper lemmas -/

/-- If the pattern does not occur in `s`, `replaceAux` leaves `s`
unchanged (Python `s.replace(pat, n) == s` when `pat not in s`). -/
theorem replaceAux_eq_of_not_contains (p0 : Char) (pr n : Text) :
    ∀ s : Text, ¬ containsText s (p0 :: pr) → replaceAux p0 pr n s = s := by
  intro s
  induction s using replaceAux.induct p0 pr n with
  | case1 => intro _; simp [replaceAux]
  | case2 c s hpre ih =>
    intro hni
    exact absurd ((List.isPrefixOf_iff_prefix.mp hpre).isInfix) hni
  | case3 c s hpre ih =>
    intro hni
    have hni' : ¬ containsText s (p0 :: pr) := fun h => hni (List.infix_cons h)
    simp only [replaceAux]
    rw [if_neg hpre, ih hni']

/-- If the pattern occurs in `s` and the replacement text contains `key`,
then the result of `replaceAux` contains `key`. -/
theorem contains_replaceAux_of_contains (p0 : Char) (pr n key : Text)
    (hkey : containsText n key) :
    ∀ s : Text, containsText s (p0 :: pr) →
      containsText (replaceAux p0 pr n s) key := by
  intro s
  induction s using replaceAux.induct p0 pr n with
  | case1 =>
    intro h
    exact absurd (List.eq_nil_of_infix_nil h) (by simp)
  | case2 c s hpre ih =>
    intro _
    simp only [replaceAux, hpre, if_true]
    exact hkey.trans (List.prefix_append n _).isInfix
  | case3 c s hpre ih =>
    intro hin
    have hin' : containsText s (p0 :: pr) := by
      rcases List.infix_cons_iff.mp hin with h | h
      · exact absurd (List.isPrefixOf_iff_prefix.mpr h) (by simpa using hpre)
      · exact h
    simp only [replaceAux, hpre, if_false]
    exact List.infix_cons (ih hin')

/-- The `gpt_trainer.py` rewrite is idempotent on file text: either the
name was already present (no change), or the rewrite introduces
`LogitsWarper` (so the second pass is guarded off), or the import pattern
never occurred (so the rewrite changed nothing). -/
theorem patchGptContent_idem (c : Text) :
    patchGptContent (patchGptContent c) = patchGptContent c := by
  unfold patchGptContent
  by_cases h : containsText c logitsWarperName
  · simp [h]
  · simp only [h, if_false]
    by_cases hp : containsText c importPat
    · have hkey : containsText importRepl logitsWarperName := by decide
      have hlw : containsText (replaceText c importPat importRepl)
          logitsWarperName := by
        unfold replaceText importPat
        exact contains_replaceAux_of_contains _ _ _ _ hkey c hp
      simp [hlw]
    · have hid : replaceText c importPat importRepl = c := by
        unfold replaceText importPat
        exact replaceAux_eq_of_not_contains _ _ _ c hp
      simp [hid, h]

/-- The `compat` file after one patcher run: written with the constant shim
text whenever either write path succeeds, untouched otherwise. -/
theorem patch_fs_compat (env : PatchEnv) (st : ConfigState) (fs : PatchFS) :
    (apply_compatibility_patch env st fs).fs.compat =
      if env.compat_write_fails && env.compat_alt_write_fails then fs.compat
      else some compatibility_code := by
  unfold apply_compatibility_patch
  by_cases h1 : env.compat_write_fails = false <;>
    by_cases h2 : env.compat_alt_write_fails = false <;>
      simp_all

/-- The `gpt_trainer.py` file after one patcher run: untouched when the
site-packages lookup raises, otherwise rewritten through
`patchGptContent`. -/
theorem patch_fs_gpt (env : PatchEnv) (st : ConfigState) (fs : PatchFS) :
    (apply_compatibility_patch env st fs).fs.gpt_trainer =
      if env.site_lookup_fails then fs.gpt_trainer
      else fs.gpt_trainer.map patchGptContent := by
  unfold apply_compatibility_patch patchGptContent
  by_cases h3 : env.site_lookup_fails <;> cases hg : fs.gpt_trainer <;>
    simp [h3, hg]
  rename_i c
  by_cases hc : containsText c logitsWarperName <;> simp [hc]

/-! ## Claim theorems -/

/-- C2: `download_file` tries wget, then curl, then requests, in that fixed
order (on the non-Windows platforms where the CLI strategies run at all);
it returns `true` exactly when some strategy exits cleanly and leaves a
destination file above the 1000-byte threshold, stopping at the first such
strategy, and it is a total boolean function — every transport error is
absorbed by an `except` inside `download_file` itself. -/
theorem c2_download_fallback_order (env : DownloadEnv)
    (h : env.is_win32 = false) :
    download_file env =
      (wgetOk env.wget || curlOk env.curl || requestsOk env.req,
       if wgetOk env.wget then [.wget]
       else if curlOk env.curl then [.wget, .curl]
       else [.wget, .curl, .requestsLib]) := by
  unfold download_file
  cases hw : wgetOk env.wget <;> cases hc : curlOk env.curl <;>
    simp [h, hw, hc]

/-- C2 witness: with wget failing and curl exiting 0 with a 2000-byte file,
the call falls through exactly once and stops at the first success. -/
theorem c2_download_fallback_order_witness :
    download_file { is_win32 := false, wget := attemptFail,
                    curl := attemptSuccess, req := attemptFail } =
      (true, [.wget, .curl]) := by
  rw [c2_download_fallback_order
    { is_win32 := false, wget := attemptFail, curl := attemptSuccess,
      req := attemptFail } rfl]
  decide

/-- C3: `load_config_state` is total over every file shape: a missing file
leaves the pure defaults, a corrupt file logs a warning and leaves the
defaults, and a parsed object is merged field-by-field over the in-memory
defaults, fields absent from the file keeping their default values. -/
theorem c3_load_state_total_merge :
    load_config_state initialConfigState .absent = (initialConfigState, false) ∧
    load_config_state initialConfigState .corrupt = (initialConfigState, true) ∧
    ∀ p : LoadedFields,
      (load_config_state initialConfigState (.parsed p)).2 = false ∧
      (load_config_state initialConfigState (.parsed p)).1.installed =
        p.installed.getD false ∧
      (load_config_state initialConfigState (.parsed p)).1.models_downloaded =
        p.models_downloaded.getD false ∧
      (load_config_state initialConfigState (.parsed p)).1.patched =
        p.patched.getD false ∧
      (load_config_state initialConfigState (.parsed p)).1.last_run =
        p.last_run.getD none ∧
      (load_config_state initialConfigState (.parsed p)).1.python_exe =
        p.python_exe.getD none ∧
      (load_config_state initialConfigState (.parsed p)).1.error_log =
        p.error_log.getD [] :=
  ⟨rfl, rfl, fun _ => ⟨rfl, rfl, rfl, rfl, rfl, rfl, rfl⟩⟩

/-- C5: when the model configuration file `model/config.json` is absent the
launcher exits with status 1 and never spawns the child web-server
process, whatever the rest of the environment does. -/
theorem c5_launcher_missing_model_config (env : LauncherEnv)
    (h : env.model_config_exists = false) :
    launcherMain env = { exit_code := some 1, spawned := false } := by
  unfold launcherMain
  cases hch : env.chdir_ok <;> simp [h, hch]

/-- C5 witness: an otherwise healthy launcher environment without the model
configuration file exits 1 without spawning. -/
theorem c5_launcher_missing_model_config_witness :
    launcherMain { chdir_ok := true, compatibility_import_ok := true,
                   dynamic_patch_ok := true, model_config_exists := false,
                   app_py_exists := true, fallback_script := none,
                   spawn_raises := false, child_returncode := 0 } =
      { exit_code := some 1, spawned := false } :=
  c5_launcher_missing_model_config _ rfl

/-- C7 counterexample: a non-aborting invocation (`check=False`) whose
command exits 1 is a failing command invocation, yet `run_command` appends
nothing to the error log and returns the result object rather than a null
result — refuting the claim that every failing invocation is logged and
appended. -/
theorem c7_counterexample_unchecked_failure :
    (1 : Int) ≠ 0 ∧
    (run_command initialConfigState 10 "pip" false
        { returncode := 1, stdout := "", stderr := "boom" }).1 =
      some { returncode := 1, stdout := "", stderr := "boom" } ∧
    (run_command initialConfigState 10 "pip" false
        { returncode := 1, stdout := "", stderr := "boom" }).2.1.error_log =
      [] :=
  ⟨by decide, rfl, rfl⟩

/-- C7 (amended): a failing invocation run with `check=True` always logs
and appends the `{timestamp, command, error, stderr}` entry to the state's
error log and yields `None`; `run_command` never terminates the whole
process; and with `check=False` a failing command's result is returned
unchanged with nothing appended. -/
theorem c7_run_command_amended (st : ConfigState) (now : Nat)
    (command : String) (r : CmdResult) (h : r.returncode ≠ 0) :
    run_command st now command true r =
      (none,
       { st with
          error_log := st.error_log ++ [commandErrorEntry now command r] },
       false) ∧
    run_command st now command false r = (some r, st, false) := by
  unfold run_command
  simp [h]

/-- C7 witness: a checked command exiting 1 at time 10. -/
theorem c7_run_command_amended_witness :
    run_command initialConfigState 10 "pip" true
        { returncode := 1, stdout := "", stderr := "boom" } =
      (none,
       { initialConfigState with
          error_log := [commandErrorEntry 10 "pip"
            { returncode := 1, stdout := "", stderr := "boom" }] },
       false) ∧
    run_command initialConfigState 10 "pip" false
        { returncode := 1, stdout := "", stderr := "boom" } =
      (some { returncode := 1, stdout := "", stderr := "boom" },
       initialConfigState, false) := by
  have h := c7_run_command_amended initialConfigState 10 "pip"
    { returncode := 1, stdout := "", stderr := "boom" } (by decide)
  simpa using h

/-- C8: on SIGINT with the child running, the handler sends a terminate
request, waits up to the fixed 5-second grace period, sends a forced kill
exactly when the child would not exit within that period, and then exits
the launcher process with status 0. -/
theorem c8_signal_handler_escalation (exits_after : Option Nat) :
    graceSeconds = 5 ∧
    (∀ t, exits_after = some t → t ≤ 5 →
      signal_handler true exits_after = ([.terminate], 0)) ∧
    (∀ t, exits_after = some t → 5 < t →
      signal_handler true exits_after = ([.terminate, .kill], 0)) ∧
    signal_handler true none = ([.terminate, .kill], 0) := by
  refine ⟨rfl, ?_, ?_, rfl⟩
  · rintro t rfl h
    simp [signal_handler, graceSeconds, h]
  · rintro t rfl h
    have h' : ¬ t ≤ 5 := by omega
    simp [signal_handler, graceSeconds, h']

/-- C8 witness: a child that would exit after 7 seconds is killed, one that
would exit after 3 seconds is not. -/
theorem c8_signal_handler_escalation_witness :
    signal_handler true (some 7) = ([.terminate, .kill], 0) ∧
    signal_handler true (some 3) = ([.terminate], 0) :=
  ⟨(c8_signal_handler_escalation (some 7)).2.2.1 7 rfl (by decide),
   (c8_signal_handler_escalation (some 3)).2.1 3 rfl (by decide)⟩

/-- C9: every completed `apply_compatibility_patch` call sets the `patched`
field to true unconditionally — also when both shim writes fail, no library
file is found to patch, and the dynamic patch fails — leaving the rest of
the state record untouched. -/
theorem c9_patched_set_unconditionally (env : PatchEnv) (st : ConfigState)
    (fs : PatchFS) :
    (apply_compatibility_patch env st fs).state =
      { st with patched := true } :=
  rfl

/-- C10: `--force-download` takes precedence: when it is set, a run that
reaches the download step invokes `download_resources` regardless of
`--skip-download` and of the `models_downloaded` value in the loaded
state. -/
theorem c10_force_download_precedence (args : Args) (file : ConfigFile)
    (env : OrchestratorEnv) (fs : PatchFS)
    (hf : args.force_download = true)
    (hpy : env.python_version_ok = true)
    (hperm : env.setup_permission_ok = true)
    (hclone : env.clone_ok = true) :
    (orchestratorMain args file env fs).download_invoked = true := by
  unfold orchestratorMain
  simp [hpy, hperm, hclone, hf]

/-- C10 witness: both flags given, state recording `models_downloaded` as
true — the download step still runs. -/
theorem c10_force_download_precedence_witness :
    (orchestratorMain argsBothFlags recordedDoneFile sampleOrchestratorEnv
        emptyPatchFS).download_invoked = true :=
  c10_force_download_precedence argsBothFlags recordedDoneFile
    sampleOrchestratorEnv emptyPatchFS rfl rfl rfl rfl

/-- C1: when the loaded state records `models_downloaded` as true and
`--force-download` is absent, an orchestrator run that passes the
prerequisite checks never calls `download_resources`, returns exit code 0,
and rewrites the state file with a `last_run` stamp equal to the save-time
clock, strictly greater than every stamp recorded before the run. -/
theorem c1_rerun_skips_download (args : Args) (file : ConfigFile)
    (env : OrchestratorEnv) (fs : PatchFS)
    (hforce : args.force_download = false)
    (hmd : (load_config_state initialConfigState file).1.models_downloaded =
      true)
    (hpy : env.python_version_ok = true)
    (hperm : env.setup_permission_ok = true)
    (hclone : env.clone_ok = true)
    (hclock : ∀ t0,
      (load_config_state initialConfigState file).1.last_run = some t0 →
      t0 < env.now) :
    (orchestratorMain args file env fs).download_invoked = false ∧
    (orchestratorMain args file env fs).exit_code = 0 ∧
    ∃ saved, (orchestratorMain args file env fs).saved = some saved ∧
      saved.last_run = some env.now ∧
      ∀ t0, (load_config_state initialConfigState file).1.last_run = some t0 →
        t0 < env.now := by
  unfold orchestratorMain
  cases hv : env.venv_python <;> cases hr : env.requirements_file_ok <;>
    simp [hpy, hperm, hclone, hforce, hmd, hv, hr, save_config_state,
      apply_compatibility_patch] <;>
    exact hclock

/-- C1 witness: flagless rerun over a state file recording a completed run
at time 5, the new run saving at time 10. -/
theorem c1_rerun_skips_download_witness :
    (orchestratorMain argsPlain recordedDoneFile sampleOrchestratorEnv
        emptyPatchFS).download_invoked = false ∧
    (orchestratorMain argsPlain recordedDoneFile sampleOrchestratorEnv
        emptyPatchFS).exit_code = 0 ∧
    ∃ saved, (orchestratorMain argsPlain recordedDoneFile
        sampleOrchestratorEnv emptyPatchFS).saved = some saved ∧
      saved.last_run = some sampleOrchestratorEnv.now ∧
      ∀ t0, (load_config_state initialConfigState recordedDoneFile).1.last_run
          = some t0 → t0 < sampleOrchestratorEnv.now :=
  c1_rerun_skips_download argsPlain recordedDoneFile sampleOrchestratorEnv
    emptyPatchFS rfl rfl rfl rfl rfl
    (fun t0 h => by
      have h5 : (5 : Nat) = t0 := Option.some.inj h
      show t0 < 10
      omega)

/-- C4 counterexample: the shim file is written even when it is already
present with exactly the shim content — the write at lines 734-737 of
`xtts_local_setup.py` is unconditional — refuting the part of the claim
that says the shim file is written only if not already present. -/
theorem c4_counterexample_shim_always_written :
    ({ compat := some compatibility_code, gpt_trainer := none } :
        PatchFS).compat = some compatibility_code ∧
    (apply_compatibility_patch patchEnvClean initialConfigState
        { compat := some compatibility_code,
          gpt_trainer := none }).shim_written = true :=
  ⟨rfl, rfl⟩

/-- C4 (amended): the patcher writes the shim file unconditionally —
whenever either write path succeeds, even if the file is already present —
but always with the same constant content; the installed library source is
rewritten only if its text does not already contain the missing name; and
consequently a second application in sequence makes no textual change to
either file. -/
theorem c4_patch_idempotent_amended (env : PatchEnv) (st : ConfigState)
    (fs : PatchFS) :
    (apply_compatibility_patch env
        (apply_compatibility_patch env st fs).state
        (apply_compatibility_patch env st fs).fs).fs =
      (apply_compatibility_patch env st fs).fs ∧
    (apply_compatibility_patch env st fs).shim_written =
      (!env.compat_write_fails || !env.compat_alt_write_fails) ∧
    ∀ c : Text, containsText c logitsWarperName →
      (apply_compatibility_patch env st
          { fs with gpt_trainer := some c }).fs.gpt_trainer = some c := by
  refine ⟨?_, ?_, ?_⟩
  · have h1 : (apply_compatibility_patch env
        (apply_compatibility_patch env st fs).state
        (apply_compatibility_patch env st fs).fs).fs.compat =
        (apply_compatibility_patch env st fs).fs.compat := by
      simp only [patch_fs_compat]
      cases hb : env.compat_write_fails && env.compat_alt_write_fails <;>
        simp [hb]
    have h2 : (apply_compatibility_patch env
        (apply_compatibility_patch env st fs).state
        (apply_compatibility_patch env st fs).fs).fs.gpt_trainer =
        (apply_compatibility_patch env st fs).fs.gpt_trainer := by
      simp only [patch_fs_gpt]
      cases hs : env.site_lookup_fails <;> simp [hs]
      cases fs.gpt_trainer <;> simp [patchGptContent_idem]
    calc (apply_compatibility_patch env
            (apply_compatibility_patch env st fs).state
            (apply_compatibility_patch env st fs).fs).fs
        = ⟨(apply_compatibility_patch env
              (apply_compatibility_patch env st fs).state
              (apply_compatibility_patch env st fs).fs).fs.compat,
           (apply_compatibility_patch env
              (apply_compatibility_patch env st fs).state
              (apply_compatibility_patch env st fs).fs).fs.gpt_trainer⟩ := rfl
      _ = ⟨(apply_compatibility_patch env st fs).fs.compat,
           (apply_compatibility_patch env st fs).fs.gpt_trainer⟩ := by
            rw [h1, h2]
      _ = (apply_compatibility_patch env st fs).fs := rfl
  · unfold apply_compatibility_patch
    cases h1 : env.compat_write_fails <;>
      cases h2 : env.compat_alt_write_fails <;> simp [h1, h2]
  · intro c hc
    simp only [patch_fs_gpt]
    cases hs : env.site_lookup_fails <;> simp [hs, patchGptContent, hc]

/-- C4 witness: a clean run is idempotent on the file system, and a
library file already containing the name is left unchanged. -/
theorem c4_patch_idempotent_amended_witness :
    (apply_compatibility_patch patchEnvClean
        (apply_compatibility_patch patchEnvClean initialConfigState
          emptyPatchFS).state
        (apply_compatibility_patch patchEnvClean initialConfigState
          emptyPatchFS).fs).fs =
      (apply_compatibility_patch patchEnvClean initialConfigState
        emptyPatchFS).fs ∧
    (apply_compatibility_patch patchEnvClean initialConfigState
        { emptyPatchFS with
            gpt_trainer := some logitsWarperName }).fs.gpt_trainer =
      some logitsWarperName :=
  ⟨(c4_patch_idempotent_amended patchEnvClean initialConfigState
      emptyPatchFS).1,
   (c4_patch_idempotent_amended patchEnvClean initialConfigState
      emptyPatchFS).2.2 logitsWarperName (by decide)⟩

/-- C6: at the concrete failing input — no cached model and every transport
strategy failing for the model archive — `download_resources` reports
failure, yet the orchestrator run still completes with exit code 0: `main`
discards the value returned by `download_resources` at line 1061, so no
non-zero abort happens, contradicting the claim (and the intent of
returning `False` from `download_resources`). -/
theorem c6_exhausted_download_still_exits_zero :
    (download_file downloadAllFail).1 = false ∧
    (download_resources resourcesAllFail initialConfigState).1 = false ∧
    (orchestratorMain argsPlain .absent sampleOrchestratorEnv
        emptyPatchFS).download_invoked = true ∧
    (orchestratorMain argsPlain .absent sampleOrchestratorEnv
        emptyPatchFS).exit_code = 0 :=
  ⟨rfl, rfl, rfl, rfl⟩

end XttsLocal
